import Mathlib

/-
Shallow embedding of the blink-monitor loop of src/Blink_Monitor.py.
Timestamps and openness values are modelled as rationals; the per-frame
state kept in st.session_state is an explicit record threaded through
step functions, one per region of the loop body.
-/

namespace BlinkMonitor

/-- Constant BLINK_RATIO = 0.4 (line 28). -/
def BLINK_RATIO : ℚ := 2/5

/-- Constant TOTAL_TIME = 5 * 60 seconds (line 29). -/
def TOTAL_TIME : ℚ := 300

/-- Constant REMINDER_DURATION = 10 seconds (line 30). -/
def REMINDER_DURATION : ℚ := 10

/-- Constant NORMAL_MAX = 20 blinks per minute (line 31). -/
def NORMAL_MAX : ℕ := 20

/-- The mutable session state of Blink_Monitor.py (st.session_state keys,
lines 10-25). -/
structure MonitorState where
  blink_count : ℕ
  eyes_closed : Bool
  open_eye_reference : Option ℚ
  minute_start : ℚ
  start_time : ℚ
  show_reminder : Bool
  reminder_start : ℚ
  camera_active : Bool
deriving DecidableEq

/-- Python truthiness of st.session_state.open_eye_reference as tested on
line 118: None and 0.0 are falsy, every other float is truthy. -/
def refTruthy : Option ℚ → Bool
  | none => false
  | some r => decide (r ≠ 0)

/-- Reference-baseline update, lines 115-116: if the reference is None or the
sample exceeds it, the reference becomes the sample. -/
def updateReference : Option ℚ → ℚ → Option ℚ
  | none, e => some e
  | some r, e => if r < e then some e else some r

/-- Blink-detection branch, lines 119-124, for a truthy reference value R:
below threshold while open counts a blink and closes; below threshold while
closed changes nothing; at or above threshold opens. Returns the new
(eyes_closed, blink_count) pair. -/
def blinkBranch (R : ℚ) (closed : Bool) (count : ℕ) (eye : ℚ) : Bool × ℕ :=
  if eye < R * BLINK_RATIO then
    if closed then (true, count) else (true, count + 1)
  else (false, count)

/-- Processing of one face-detected frame with openness sample eye,
lines 113-124: update the reference, then run the detection branch only when
the stored reference is truthy. -/
def processFace (s : MonitorState) (eye : ℚ) : MonitorState :=
  let r := updateReference s.open_eye_reference eye
  let s1 := { s with open_eye_reference := r }
  if refTruthy r then
    let p := blinkBranch (r.getD 0) s1.eyes_closed s1.blink_count eye
    { s1 with eyes_closed := p.1, blink_count := p.2 }
  else s1

/-- Per-frame blink-detection region, lines 107-124: when the landmark model
finds no face the whole region is skipped, otherwise the single openness
sample is processed. -/
def processFrameDetect (s : MonitorState) (face : Option ℚ) : MonitorState :=
  match face with
  | none => s
  | some eye => processFace s eye

/-- Minute handling, lines 127-133: once 60 seconds have elapsed since
minute_start, activate the reminder when the count is under NORMAL_MAX, then
unconditionally zero the count and restart the minute window. -/
def minuteStep (s : MonitorState) (now : ℚ) : MonitorState :=
  if now - s.minute_start ≥ 60 then
    let s1 :=
      if s.blink_count < NORMAL_MAX then
        { s with show_reminder := true, reminder_start := now }
      else s
    { s1 with blink_count := 0, minute_start := now }
  else s

/-- Loop outcomes of one iteration: keep looping, break on a failed frame
read (line 100), or break because the session completed (line 140). -/
inductive IterOutcome where
  | next
  | readFail
  | completed
deriving DecidableEq

/-- Total-timer check, lines 136-140: when elapsed time reaches TOTAL_TIME
the session deactivates and the loop breaks with the completed outcome. -/
def timerStep (s : MonitorState) (now : ℚ) : MonitorState × IterOutcome :=
  if now - s.start_time ≥ TOTAL_TIME then
    ({ s with camera_active := false }, IterOutcome.completed)
  else (s, IterOutcome.next)

/-- Gentle-reminder region, lines 168-191: while show_reminder is set, the
glyph renders only when at most REMINDER_DURATION seconds have passed since
reminder_start; past that the flag is cleared and nothing renders. Returns
the new state and whether the reminder glyph was rendered on this frame. -/
def reminderRender (s : MonitorState) (now : ℚ) : MonitorState × Bool :=
  if s.show_reminder then
    if now - s.reminder_start ≤ REMINDER_DURATION then (s, true)
    else ({ s with show_reminder := false }, false)
  else (s, false)

/-- One iteration of the while loop, lines 96-199: a failed read breaks at
once with the state untouched; otherwise detection, minute handling, the
total-timer check and the reminder region run in order. The Bool is whether
the reminder glyph rendered on this frame. -/
def loopIter (s : MonitorState) (readOk : Bool) (face : Option ℚ) (now : ℚ) :
    MonitorState × IterOutcome × Bool :=
  if readOk then
    let s2 := minuteStep (processFrameDetect s face) now
    match timerStep s2 now with
    | (s3, IterOutcome.completed) => (s3, IterOutcome.completed, false)
    | (s3, _) =>
      let p := reminderRender s3 now
      (p.1, IterOutcome.next, p.2)
  else (s, IterOutcome.readFail, false)

/-- Observable result of leaving the loop: final state, how many times
camera.release() ran, and which message was shown. -/
structure RunResult where
  state : MonitorState
  releases : ℕ
  errorShown : Bool
  successShown : Bool
deriving DecidableEq

/-- Code after the loop, lines 201-206: the camera is released exactly once
on every exit path; camera_active is cleared here only when the realtime
stop button was pressed. The error message comes from line 99 on a failed
read and the success message from line 139 on completion. -/
def finishRun (s : MonitorState) (out : IterOutcome) (stop_button : Bool) :
    RunResult :=
  { state := if stop_button then { s with camera_active := false } else s
    releases := 1
    errorShown := match out with | IterOutcome.readFail => true | _ => false
    successShown := match out with | IterOutcome.completed => true | _ => false }

/-- A breaking iteration followed by the post-loop code: the run result and
the outcome of the iteration that ended the loop. -/
def runStep (s : MonitorState) (readOk : Bool) (face : Option ℚ) (now : ℚ)
    (stop_button : Bool) : RunResult × IterOutcome :=
  let t := loopIter s readOk face now
  (finishRun t.1 t.2.1 stop_button, t.2.1)

/-- Start Camera button handler, lines 65-73: reactivates the session and
reinitializes every detection field; reminder_start is not touched. -/
def startCamera (s : MonitorState) (now : ℚ) : MonitorState :=
  { s with camera_active := true, blink_count := 0, eyes_closed := false,
           open_eye_reference := none, minute_start := now, start_time := now,
           show_reminder := false }

/-- Detection step over a fixed reference baseline R, lines 118-124 with the
reference held constant: the truthiness guard on line 118, then the
threshold branch, acting on an (eyes_closed, blink_count) pair. -/
def detectStepFixed (R : ℚ) (st : Bool × ℕ) (eye : ℚ) : Bool × ℕ :=
  if refTruthy (some R) then blinkBranch R st.1 st.2 eye else st

/-- Number of maximal runs of consecutive samples satisfying p, given
whether a run is already open on entry. -/
def countRunsFrom (p : ℚ → Bool) : Bool → List ℚ → ℕ
  | _, [] => 0
  | inRun, x :: xs =>
    if p x then (if inRun then 0 else 1) + countRunsFrom p true xs
    else countRunsFrom p false xs

/-- Number of maximal runs of consecutive samples satisfying p. -/
def countRuns (p : ℚ → Bool) (l : List ℚ) : ℕ := countRunsFrom p false l

/-- Pointwise order on optional reference values: an unset reference is
below everything, a set one never falls back to unset and never decreases. -/
def optLe : Option ℚ → Option ℚ → Prop
  | none, _ => True
  | some _, none => False
  | some v, some w => v ≤ w

/-- A mid-session state: three blinks this minute, reference established,
reminder off, session active. -/
def sampleState : MonitorState :=
  { blink_count := 3, eyes_closed := false, open_eye_reference := some 1,
    minute_start := 0, start_time := 0, show_reminder := false,
    reminder_start := 0, camera_active := true }

/-- A state whose reminder is currently active (activated at time 0) with a
low blink count and a minute boundary due at time 60. -/
def activeReminderState : MonitorState :=
  { blink_count := 0, eyes_closed := false, open_eye_reference := some 1,
    minute_start := 0, start_time := 0, show_reminder := true,
    reminder_start := 0, camera_active := true }

/-- A fresh state right after Start Camera: no reference yet. -/
def freshState : MonitorState :=
  { blink_count := 0, eyes_closed := false, open_eye_reference := none,
    minute_start := 0, start_time := 0, show_reminder := false,
    reminder_start := 0, camera_active := true }

/-- Helper for run counting: folding the fixed-reference detection step adds
to any starting count exactly the number of maximal below-threshold runs,
counted relative to the starting eyes_closed flag. -/
lemma foldl_detect_eq_countRunsFrom (R : ℚ) (hR : R ≠ 0) :
    ∀ (l : List ℚ) (closed : Bool) (n : ℕ),
      (l.foldl (detectStepFixed R) (closed, n)).2
        = n + countRunsFrom (fun x => decide (x < R * BLINK_RATIO)) closed l := by
  intro l
  induction l with
  | nil => intro closed n; simp [countRunsFrom]
  | cons x xs ih =>
    intro closed n
    by_cases h : x < R * BLINK_RATIO
    · cases closed with
      | false =>
        have hstep : detectStepFixed R (false, n) x = (true, n + 1) := by
          simp [detectStepFixed, refTruthy, hR, blinkBranch, h]
        rw [List.foldl_cons, hstep, ih true (n + 1)]
        simp [countRunsFrom, h]
        omega
      | true =>
        have hstep : detectStepFixed R (true, n) x = (true, n) := by
          simp [detectStepFixed, refTruthy, hR, blinkBranch, h]
        rw [List.foldl_cons, hstep, ih true n]
        simp [countRunsFrom, h]
    · have hstep : detectStepFixed R (closed, n) x = (false, n) := by
        simp [detectStepFixed, refTruthy, hR, blinkBranch, h]
      rw [List.foldl_cons, hstep, ih false n]
      simp [countRunsFrom, h]

end BlinkMonitor

namespace BlinkMonitor

/-- C1: for every sequence of openness samples processed with a fixed
reference baseline R (positive, as any recorded baseline is), the blink
count produced by the detection step starting from the OPEN state equals
the number of maximal runs of consecutive samples strictly below
R * BLINK_RATIO. -/
theorem blink_count_eq_maximal_runs (R : ℚ) (hR : 0 < R) (l : List ℚ) :
    (l.foldl (detectStepFixed R) (false, 0)).2
      = countRuns (fun x => decide (x < R * BLINK_RATIO)) l := by
  have h := foldl_detect_eq_countRunsFrom R (ne_of_gt hR) l false 0
  simpa [countRuns] using h

/-- C1 witness: with baseline R = 0.10 the stream
[0.10, 0.03, 0.03, 0.11, 0.02] yields exactly 2 counted blinks, and that is
exactly the number of maximal runs strictly below 0.04. -/
theorem blink_count_eq_maximal_runs_witness :
    (0 : ℚ) < 1/10 ∧
    (([(1 : ℚ)/10, 3/100, 3/100, 11/100, 2/100].foldl
        (detectStepFixed (1/10)) (false, 0)).2
      = countRuns (fun x => decide (x < (1 : ℚ)/10 * BLINK_RATIO))
          [(1 : ℚ)/10, 3/100, 3/100, 11/100, 2/100]) ∧
    countRuns (fun x => decide (x < (1 : ℚ)/10 * BLINK_RATIO))
        [(1 : ℚ)/10, 3/100, 3/100, 11/100, 2/100] = 2 :=
  ⟨by norm_num,
   blink_count_eq_maximal_runs (1/10) (by norm_num) _,
   by norm_num [countRuns, countRunsFrom, BLINK_RATIO]⟩

/-- C2 counterexample: a minute-boundary evaluation occurring while the
reminder is already active (show_reminder true, reminder_start 0) with a
low blink count changes the reminder timestamp to now, so it does reset and
extend the reminder, contrary to the claim. -/
theorem minute_eval_resets_active_reminder_cex :
    activeReminderState.show_reminder = true ∧
    (60 : ℚ) - activeReminderState.minute_start ≥ 60 ∧
    activeReminderState.blink_count < NORMAL_MAX ∧
    (minuteStep activeReminderState 60).reminder_start
      ≠ activeReminderState.reminder_start := by
  refine ⟨rfl, by norm_num [activeReminderState], by norm_num [activeReminderState, NORMAL_MAX], ?_⟩
  norm_num [minuteStep, activeReminderState, NORMAL_MAX]

/-- C2 amended: when a minute-boundary evaluation occurs while the reminder
is already active, the evaluation re-activates the reminder whenever the
current count is below NORMAL_MAX, setting its timestamp to now and thereby
resetting and extending it; only when the count is at least NORMAL_MAX does
it leave the reminder fields unchanged. -/
theorem minute_eval_reactivates_active_reminder (s : MonitorState) (now : ℚ)
    (h : now - s.minute_start ≥ 60) (ha : s.show_reminder = true) :
    (s.blink_count < NORMAL_MAX →
      (minuteStep s now).show_reminder = true ∧
      (minuteStep s now).reminder_start = now) ∧
    (¬ s.blink_count < NORMAL_MAX →
      (minuteStep s now).show_reminder = true ∧
      (minuteStep s now).reminder_start = s.reminder_start) := by
  unfold minuteStep
  rw [if_pos h]
  by_cases hc : s.blink_count < NORMAL_MAX
  · simp [hc]
  · simp [hc, ha]

/-- C2 amended witness: at the concrete active-reminder state, the boundary
evaluation at time 60 re-activates the reminder with timestamp 60. -/
theorem minute_eval_reactivates_active_reminder_witness :
    (minuteStep activeReminderState 60).show_reminder = true ∧
    (minuteStep activeReminderState 60).reminder_start = 60 :=
  (minute_eval_reactivates_active_reminder activeReminderState 60
      (by norm_num [activeReminderState]) rfl).1
    (by norm_num [activeReminderState, NORMAL_MAX])

/-- C3: whenever 60 seconds have elapsed since minute_start, the minute
evaluation zeroes the blink count and restarts the window at now, activates
the reminder (show_reminder true, reminder_start now) exactly when the
count k is below NORMAL_MAX, and leaves the reminder fields untouched when
k is at least NORMAL_MAX; the counter reset happens for every k. -/
theorem minute_boundary_effect (s : MonitorState) (now : ℚ)
    (h : now - s.minute_start ≥ 60) :
    (minuteStep s now).blink_count = 0 ∧
    (minuteStep s now).minute_start = now ∧
    (s.blink_count < NORMAL_MAX →
      (minuteStep s now).show_reminder = true ∧
      (minuteStep s now).reminder_start = now) ∧
    (¬ s.blink_count < NORMAL_MAX →
      (minuteStep s now).show_reminder = s.show_reminder ∧
      (minuteStep s now).reminder_start = s.reminder_start) := by
  unfold minuteStep
  rw [if_pos h]
  by_cases hc : s.blink_count < NORMAL_MAX
  · simp [hc]
  · simp [hc]

/-- C3 witness: at the concrete mid-session state with k = 3 < 20 at the
60-second mark, the counter resets to 0, the window restarts at 60, and the
reminder activates with timestamp 60. -/
theorem minute_boundary_effect_witness :
    (minuteStep sampleState 60).blink_count = 0 ∧
    (minuteStep sampleState 60).minute_start = 60 ∧
    (minuteStep sampleState 60).show_reminder = true ∧
    (minuteStep sampleState 60).reminder_start = 60 := by
  have h : (60 : ℚ) - sampleState.minute_start ≥ 60 := by
    norm_num [sampleState]
  have H := minute_boundary_effect sampleState 60 h
  have hk : sampleState.blink_count < NORMAL_MAX := by
    norm_num [sampleState, NORMAL_MAX]
  exact ⟨H.1, H.2.1, (H.2.2.1 hk).1, (H.2.2.1 hk).2⟩

/-- C4: the blink counter changes only on a frame that closes the eyes from
the OPEN state, and then by exactly one; it never changes on a frame
processed while already CLOSED; and from the OPEN state two consecutive
below-threshold frames add exactly one to the counter in total. -/
theorem blink_increment_only_on_close_transition
    (R : ℚ) (closed : Bool) (n : ℕ) (e e1 e2 : ℚ) :
    ((blinkBranch R closed n e).2 ≠ n →
      closed = false ∧ e < R * BLINK_RATIO ∧
      (blinkBranch R closed n e).1 = true ∧
      (blinkBranch R closed n e).2 = n + 1) ∧
    (closed = true → (blinkBranch R closed n e).2 = n) ∧
    (e1 < R * BLINK_RATIO → e2 < R * BLINK_RATIO →
      (blinkBranch R (blinkBranch R false n e1).1
        (blinkBranch R false n e1).2 e2).2 = n + 1) := by
  refine ⟨?_, ?_, ?_⟩
  · intro hne
    by_cases h : e < R * BLINK_RATIO
    · cases closed with
      | false => simp [blinkBranch, h]
      | true => exact absurd (by simp [blinkBranch, h]) hne
    · exact absurd (by simp [blinkBranch, h]) hne
  · intro hc
    subst hc
    by_cases h : e < R * BLINK_RATIO <;> simp [blinkBranch, h]
  · intro h1 h2
    simp [blinkBranch, h1, h2]

/-- C4 witness: with baseline 1 and sample 0, a frame while already CLOSED
leaves the count at 5, and from OPEN two consecutive below-threshold frames
raise the count from 5 to exactly 6. -/
theorem blink_increment_only_on_close_transition_witness :
    (blinkBranch 1 true 5 0).2 = 5 ∧
    (blinkBranch 1 (blinkBranch 1 false 5 0).1
      (blinkBranch 1 false 5 0).2 0).2 = 6 := by
  have h0 : (0 : ℚ) < 1 * BLINK_RATIO := by norm_num [ BLINK_RATIO]
  exact ⟨(blink_increment_only_on_close_transition 1 true 5 0 0 0).2.1 rfl,
    (blink_increment_only_on_close_transition 1 false 5 0 0 0).2.2 h0 h0⟩

/-- One reference update never decreases the stored reference. -/
lemma optLe_updateReference (r : Option ℚ) (e : ℚ) :
    optLe r (updateReference r e) := by
  cases r with
  | none => trivial
  | some v =>
    by_cases h : v < e
    · simp only [updateReference, if_pos h, optLe]
      exact le_of_lt h
    · simp only [updateReference, if_neg h, optLe]
      exact le_refl v

/-- The optional-reference order is transitive. -/
lemma optLe_trans {a b c : Option ℚ} (hab : optLe a b) (hbc : optLe b c) :
    optLe a c := by
  cases a with
  | none => trivial
  | some v =>
    cases b with
    | none => exact absurd hab (by simp [optLe])
    | some w =>
      cases c with
      | none => exact absurd hbc (by simp [optLe])
      | some u => exact le_trans hab hbc

/-- Processing a face frame stores exactly the updated reference. -/
lemma processFace_ref (s : MonitorState) (e : ℚ) :
    (processFace s e).open_eye_reference
      = updateReference s.open_eye_reference e := by
  unfold processFace
  by_cases h : refTruthy (updateReference s.open_eye_reference e)
  · simp [h]
  · simp [h]

/-- The per-frame detection region never decreases the reference. -/
lemma optLe_processFrameDetect (s : MonitorState) (f : Option ℚ) :
    optLe s.open_eye_reference (processFrameDetect s f).open_eye_reference := by
  cases f with
  | none =>
    cases h : s.open_eye_reference with
    | none => trivial
    | some v => simp [processFrameDetect, h, optLe]
  | some e =>
    rw [processFrameDetect, processFace_ref]
    exact optLe_updateReference s.open_eye_reference e

/-- Over any list of frames the reference never decreases. -/
lemma optLe_foldl_frames (frames : List (Option ℚ)) :
    ∀ s : MonitorState,
      optLe s.open_eye_reference
        ((frames.foldl processFrameDetect s).open_eye_reference) := by
  induction frames with
  | nil =>
    intro s
    cases h : s.open_eye_reference with
    | none => trivial
    | some v => simp [h, optLe]
  | cons f fs ih =>
    intro s
    rw [List.foldl_cons]
    exact optLe_trans (optLe_processFrameDetect s f) (ih (processFrameDetect s f))

/-- C5: the reference baseline never decreases over the processed frames of
a session; it is updated to the new sample exactly when it is unset or the
sample exceeds the current value, kept otherwise; and the Start Camera
action resets it to unset. -/
theorem reference_monotone_and_reset :
    (∀ (frames : List (Option ℚ)) (s : MonitorState),
      optLe s.open_eye_reference
        ((frames.foldl processFrameDetect s).open_eye_reference)) ∧
    (∀ e : ℚ, updateReference none e = some e) ∧
    (∀ v e : ℚ, v < e → updateReference (some v) e = some e) ∧
    (∀ v e : ℚ, e ≤ v → updateReference (some v) e = some v) ∧
    (∀ (s : MonitorState) (now : ℚ),
      (startCamera s now).open_eye_reference = none) := by
  refine ⟨fun frames s => optLe_foldl_frames frames s, fun e => rfl, ?_, ?_, fun s now => rfl⟩
  · intro v e h
    simp [updateReference, h]
  · intro v e h
    simp [updateReference, not_lt.mpr h]

/-- C5 witness: a larger sample 2 replaces the stored reference 1, a smaller
sample 1 leaves the stored reference 2 in place, and Start Camera on the
mid-session state clears the reference. -/
theorem reference_monotone_and_reset_witness :
    updateReference (some 1) 2 = some 2 ∧
    updateReference (some 2) 1 = some 2 ∧
    (startCamera sampleState 0).open_eye_reference = none :=
  ⟨reference_monotone_and_reset.2.2.1 1 2 (by norm_num),
   reference_monotone_and_reset.2.2.2.1 2 1 (by norm_num),
   reference_monotone_and_reset.2.2.2.2 sampleState 0⟩

/-- C6 counterexample: a failed frame read at the concrete mid-session
state aborts the loop with the error message shown and the camera released
once, yet the session flag camera_active is left true, so the session is
not marked inactive as the claim states. -/
theorem read_failure_leaves_session_active_cex :
    (runStep sampleState false none 1 false).2 = IterOutcome.readFail ∧
    (runStep sampleState false none 1 false).1.errorShown = true ∧
    (runStep sampleState false none 1 false).1.releases = 1 ∧
    (runStep sampleState false none 1 false).1.state.camera_active ≠ false := by
  refine ⟨rfl, rfl, rfl, ?_⟩
  simp [runStep, loopIter, finishRun, sampleState]

/-- C6 amended: a single frame-read failure immediately aborts the loop
with the state untouched and no retry, the camera is released exactly once,
and the error message is shown; however camera_active is left unchanged, so
the session is not marked inactive on this path (the realtime stop button
is necessarily unpressed when the loop body runs). -/
theorem read_failure_aborts_releases_shows_error
    (s : MonitorState) (face : Option ℚ) (now : ℚ) :
    loopIter s false face now = (s, IterOutcome.readFail, false) ∧
    (runStep s false face now false).1.errorShown = true ∧
    (runStep s false face now false).1.releases = 1 ∧
    (runStep s false face now false).1.state = s :=
  ⟨rfl, rfl, rfl, rfl⟩

/-- C7: on any frame processed more than REMINDER_DURATION seconds after
the current reminder timestamp, the reminder glyph is not rendered and the
reminder flag ends up cleared; no minute-boundary state enters this step. -/
theorem reminder_not_rendered_after_duration (s : MonitorState) (now : ℚ)
    (h : now - s.reminder_start > REMINDER_DURATION) :
    (reminderRender s now).2 = false ∧
    (reminderRender s now).1.show_reminder = false := by
  have hn : ¬ now - s.reminder_start ≤ REMINDER_DURATION := not_le.mpr h
  cases hs : s.show_reminder with
  | false => simp [reminderRender, hs]
  | true => simp [reminderRender, hs, hn]

/-- C7 witness: at the concrete active-reminder state with timestamp 0, the
frame at time 11 renders no glyph and clears the flag. -/
theorem reminder_not_rendered_after_duration_witness :
    (reminderRender activeReminderState 11).2 = false ∧
    (reminderRender activeReminderState 11).1.show_reminder = false :=
  reminder_not_rendered_after_duration activeReminderState 11
    (by norm_num [activeReminderState, REMINDER_DURATION])

/-- A face frame never changes start_time. -/
lemma processFace_start_time (s : MonitorState) (e : ℚ) :
    (processFace s e).start_time = s.start_time := by
  unfold processFace
  by_cases h : refTruthy (updateReference s.open_eye_reference e)
  · simp [h]
  · simp [h]

/-- The detection region never changes start_time. -/
lemma processFrameDetect_start_time (s : MonitorState) (f : Option ℚ) :
    (processFrameDetect s f).start_time = s.start_time := by
  cases f with
  | none => rfl
  | some e => exact processFace_start_time s e

/-- Minute handling never changes start_time. -/
lemma minuteStep_start_time (s : MonitorState) (now : ℚ) :
    (minuteStep s now).start_time = s.start_time := by
  unfold minuteStep
  by_cases h : now - s.minute_start ≥ 60
  · rw [if_pos h]
    by_cases hc : s.blink_count < NORMAL_MAX
    · simp [hc]
    · simp [hc]
  · rw [if_neg h]

/-- C8: when the elapsed session time has reached TOTAL_TIME at the timer
check of an iteration, that iteration breaks with the completed outcome,
the session flag camera_active becomes false, the success message is shown,
and the camera is released exactly once. -/
theorem session_completion_at_total_time
    (s : MonitorState) (face : Option ℚ) (now : ℚ)
    (h : now - s.start_time ≥ TOTAL_TIME) :
    (loopIter s true face now).2.1 = IterOutcome.completed ∧
    (loopIter s true face now).1.camera_active = false ∧
    (runStep s true face now false).1.successShown = true ∧
    (runStep s true face now false).1.releases = 1 := by
  have hst : (minuteStep (processFrameDetect s face) now).start_time
      = s.start_time := by
    rw [minuteStep_start_time, processFrameDetect_start_time]
  have htimer : timerStep (minuteStep (processFrameDetect s face) now) now
      = ({ minuteStep (processFrameDetect s face) now with
            camera_active := false }, IterOutcome.completed) := by
    have hcond : now - (minuteStep (processFrameDetect s face) now).start_time
        ≥ TOTAL_TIME := by rw [hst]; exact h
    unfold timerStep
    rw [if_pos hcond]
  refine ⟨?_, ?_, ?_, ?_⟩ <;>
    simp [loopIter, runStep, htimer, finishRun]

/-- C8 witness: from the concrete mid-session state started at time 0, the
iteration at time 300 completes the session, deactivates it, shows the
success message, and releases the camera once. -/
theorem session_completion_at_total_time_witness :
    (loopIter sampleState true none 300).2.1 = IterOutcome.completed ∧
    (loopIter sampleState true none 300).1.camera_active = false ∧
    (runStep sampleState true none 300 false).1.successShown = true ∧
    (runStep sampleState true none 300 false).1.releases = 1 :=
  session_completion_at_total_time sampleState none 300
    (by norm_num [sampleState, TOTAL_TIME])

/-- C9: a frame in which no face is detected leaves the whole session state
unchanged by the detection region; in particular the blink counter, the
eyes_closed flag and the reference baseline are untouched. -/
theorem no_face_frame_state_unchanged (s : MonitorState) :
    processFrameDetect s none = s ∧
    (processFrameDetect s none).blink_count = s.blink_count ∧
    (processFrameDetect s none).eyes_closed = s.eyes_closed ∧
    (processFrameDetect s none).open_eye_reference = s.open_eye_reference :=
  ⟨rfl, rfl, rfl, rfl⟩

/-- C10: on a frame whose computed sample is exactly 0 while the reference
is unset or 0, the reference is stored as 0 but the truthiness guard
rejects it, so the detection branch is skipped: the blink state and counter
are unchanged and no threshold comparison happens. -/
theorem zero_reference_skips_detection (s : MonitorState)
    (h : s.open_eye_reference = none ∨ s.open_eye_reference = some 0) :
    (processFace s 0).open_eye_reference = some 0 ∧
    (processFace s 0).eyes_closed = s.eyes_closed ∧
    (processFace s 0).blink_count = s.blink_count ∧
    refTruthy (some 0) = false := by
  rcases h with h | h
  · simp [processFace, h, updateReference, refTruthy]
  · simp [processFace, h, updateReference, refTruthy]

/-- C10 witness: on the very first face frame of a fresh session with a
sample of exactly 0, the reference becomes 0 and the blink state and
counter stay at their initial values. -/
theorem zero_reference_skips_detection_witness :
    (processFace freshState 0).open_eye_reference = some 0 ∧
    (processFace freshState 0).eyes_closed = freshState.eyes_closed ∧
    (processFace freshState 0).blink_count = freshState.blink_count ∧
    refTruthy (some 0) = false :=
  zero_reference_skips_detection freshState (Or.inl rfl)

end BlinkMonitor
